import Mathlib

/-
  Verification of the TaskHandler client against its specification.

  The four source files are React components whose observable behaviour
  lives in a handful of async event handlers.  Each handler is embedded
  as a pure function from the component state and an environment (the
  backend responses it will receive, and the outcome of each request it
  issues) to the new component state together with the effects it
  performs: the HTTP requests issued, the toast notifications shown,
  console error logs, and whether a re-fetch of the view data was
  triggered.  Fallible backend calls are `Except Unit`-valued; a JSON
  body that may fail the `Array.isArray` guard in the source is an
  `Option (List _)` (with `none` standing for a non-array body).
  JavaScript string falsiness (`x || d` where `x` is `undefined`, `null`
  or `""`) is captured by `jsOr` on `Option String`.
-/

namespace TaskHandler

/-- JavaScript `x || d` for an optional string field: `undefined`/`null`
(`none`) and the empty string are falsy and yield the default. -/
def jsOr (x : Option String) (d : String) : String :=
  match x with
  | none => d
  | some s => if s = "" then d else s

/-- JavaScript `s.trim()`: leading and trailing whitespace removed.
Defined over the character list so that concrete instances evaluate. -/
def jsTrim (s : String) : String :=
  String.mk
    (((s.data.dropWhile Char.isWhitespace).reverse.dropWhile
      Char.isWhitespace).reverse)

/-- A toast notification, as produced by `toast.error` / `toast.success`. -/
inductive Toast where
  | error (msg : String)
  | success (msg : String)
deriving DecidableEq

/-- ExtractedTask \x7btitle, description?, priority?\x7d as returned by the AI
endpoint; every field may be missing since the source does not validate
the task shape. -/
structure ExtractedTask where
  title : Option String
  description : Option String
  priority : Option String
deriving DecidableEq

/-- Board record as fetched from the backend. -/
structure BoardData where
  id : String
  title : String
  description : Option String
  background : Option String
deriving DecidableEq

/-- List record \x7bid, board_id, title, position\x7d. -/
structure ListItem where
  id : String
  board_id : String
  title : String
  position : Nat
deriving DecidableEq

/-- Card record \x7bid, list_id, board_id, title, description?, priority?,
position\x7d. -/
structure CardData where
  id : String
  list_id : String
  board_id : String
  title : String
  description : Option String
  priority : Option String
  position : Nat
deriving DecidableEq

/-- Body of a `POST /api/lists/\x7blistId\x7d/cards` request.  The BoardView
creation sends no priority field (`none`); the inbox bulk commit always
sends one (`some _`). -/
structure CardCreateReq where
  title : String
  description : String
  list_id : String
  board_id : String
  position : Nat
  priority : Option String
deriving DecidableEq

/-- Body of a `POST /api/boards/\x7bboardId\x7d/lists` request. -/
structure ListCreateReq where
  title : String
  board_id : String
  position : Nat
deriving DecidableEq

/-- Body of a `POST /api/boards` request. -/
structure BoardCreateReq where
  title : String
  description : String
deriving DecidableEq

/-- Result of a mutation handler: the request it issued (`none` when the
handler returned before any network call), the toasts shown, the new
component state, and whether the handler triggered a data re-fetch. -/
structure MutationOut (σ ρ : Type) where
  request : Option ρ
  toasts : List Toast
  state : σ
  refetch : Bool
deriving DecidableEq

/-! ## Login (src/unnamed/part_000) -/

/-- The user object returned by the auth endpoints. -/
structure AuthUser where
  id : String
  name : String
  email : String
deriving DecidableEq

/-- A successful auth response body, destructured as `\x7btoken, user\x7d`. -/
structure AuthResponse where
  token : String
  user : AuthUser
deriving DecidableEq

/-- Local state of the Login component. -/
structure LoginState where
  isLogin : Bool
  email : String
  password : String
  name : String
  loading : Bool
deriving DecidableEq

/-- Effects of one credential submission: the new state, every invocation
of the `onLogin` callback (in order, with its two arguments), and the
toasts shown. -/
structure SubmitOut where
  state : LoginState
  onLoginCalls : List (String × AuthUser)
  toasts : List Toast
deriving DecidableEq

/-- `handleSubmit` of the Login component.  The environment is the
response of the one POST it issues: on success the body is destructured
as `\x7btoken, user\x7d` and `onLogin(token, user)` is called, then a success
toast; on failure the backend detail (or a generic fallback) is shown.
`setLoading(true)` followed by the `finally setLoading(false)` nets to
`loading := false`. -/
def handleSubmit (s : LoginState) (res : Except (Option String) AuthResponse) :
    SubmitOut :=
  match res with
  | .ok r =>
      { state := { s with loading := false }
        onLoginCalls := [(r.token, r.user)]
        toasts := [.success (if s.isLogin then "Welcome back!"
                             else "Account created successfully!")] }
  | .error detail =>
      { state := { s with loading := false }
        onLoginCalls := []
        toasts := [.error (detail.getD "An error occurred")] }

/-! ## Dashboard (src/unnamed/part_001) -/

/-- Local state of the Dashboard (board list) component. -/
structure DashboardState where
  boards : List BoardData
  loading : Bool
  showNewBoard : Bool
  newBoardTitle : String
  newBoardDescription : String
deriving DecidableEq

/-- `createBoard` of the Dashboard.  A blank (whitespace-only) title is
rejected before any network call with an error toast and no state
change; otherwise the board is posted and, on success, the dialog
closes, the form resets and the board set is re-fetched. -/
def createBoard (s : DashboardState) (postRes : Except Unit Unit) :
    MutationOut DashboardState BoardCreateReq :=
  if jsTrim s.newBoardTitle = "" then
    { request := none
      toasts := [.error "Board title is required"]
      state := s
      refetch := false }
  else
    match postRes with
    | .ok _ =>
        { request := some { title := s.newBoardTitle
                            description := s.newBoardDescription }
          toasts := [.success "Board created successfully!"]
          state := { s with showNewBoard := false, newBoardTitle := ""
                            newBoardDescription := "" }
          refetch := true }
    | .error _ =>
        { request := some { title := s.newBoardTitle
                            description := s.newBoardDescription }
          toasts := [.error "Failed to create board"]
          state := s
          refetch := false }

/-! ## BoardView (src/frontend/src/pages/BoardView.js) -/

/-- Local state of the BoardView (board detail) component. -/
structure BoardViewState where
  board : Option BoardData
  lists : List ListItem
  cards : List CardData
  loading : Bool
  newListTitle : String
  selectedCard : Option CardData
  showCardDialog : Bool
  newCardTitle : String
  newCardListId : String
  showNewCardDialog : Bool
deriving DecidableEq

/-- The three responses jointly awaited by `fetchBoardData` via
`Promise.all`. -/
structure BoardFetchEnv where
  boardRes : Except Unit BoardData
  listsRes : Except Unit (List ListItem)
  cardsRes : Except Unit (List CardData)

/-- `fetchBoardData`: the three GETs are awaited jointly; only when all
three succeed are `board`, `lists` and `cards` replaced.  Any rejection
reaches the catch, which only toasts; the `finally` clears `loading`
either way. -/
def fetchBoardData (s : BoardViewState) (env : BoardFetchEnv) :
    BoardViewState × List Toast :=
  match env.boardRes, env.listsRes, env.cardsRes with
  | .ok b, .ok ls, .ok cs =>
      ({ s with board := some b, lists := ls, cards := cs, loading := false },
       [])
  | _, _, _ =>
      ({ s with loading := false }, [.error "Failed to load board data"])

/-- `createList`: a blank title returns silently (no request, no toast,
no state change).  Otherwise the list is posted with the untrimmed title
and `position = lists.length`; on success the input clears, the board
data is re-fetched and a success toast is shown. -/
def createList (boardId : String) (s : BoardViewState)
    (postRes : Except Unit Unit) : MutationOut BoardViewState ListCreateReq :=
  if jsTrim s.newListTitle = "" then
    { request := none, toasts := [], state := s, refetch := false }
  else
    match postRes with
    | .ok _ =>
        { request := some { title := s.newListTitle, board_id := boardId
                            position := s.lists.length }
          toasts := [.success "List created!"]
          state := { s with newListTitle := "" }
          refetch := true }
    | .error _ =>
        { request := some { title := s.newListTitle, board_id := boardId
                            position := s.lists.length }
          toasts := [.error "Failed to create list"]
          state := s
          refetch := false }

/-- `handleCreateCard`: an empty title is rejected with an error toast
and no network call; otherwise the card is posted with
`position = (cards in the target list).length`, empty description and no
priority field; on success the dialog closes, the form resets and the
board data is re-fetched. -/
def handleCreateCard (boardId : String) (s : BoardViewState)
    (postRes : Except Unit Unit) : MutationOut BoardViewState CardCreateReq :=
  if jsTrim s.newCardTitle = "" then
    { request := none
      toasts := [.error "Card title is required"]
      state := s
      refetch := false }
  else
    let listCards := s.cards.filter (fun c => c.list_id == s.newCardListId)
    let req : CardCreateReq :=
      { title := s.newCardTitle, description := "",
        list_id := s.newCardListId, board_id := boardId
        position := listCards.length, priority := none }
    match postRes with
    | .ok _ =>
        { request := some req
          toasts := [.success "Card created!"]
          state := { s with showNewCardDialog := false
                            newCardTitle := "", newCardListId := "" }
          refetch := true }
    | .error _ =>
        { request := some req
          toasts := [.error "Failed to create card"]
          state := s
          refetch := false }

/-- `deleteCard`: `window.confirm` is modelled by the `confirmed`
argument; declining returns before any network call.  On a confirmed
delete the DELETE is issued; on success the board data is re-fetched and
the detail dialog closes. -/
def deleteCard (s : BoardViewState) (cardId : String) (confirmed : Bool)
    (delRes : Except Unit Unit) : MutationOut BoardViewState String :=
  if !confirmed then
    { request := none, toasts := [], state := s, refetch := false }
  else
    match delRes with
    | .ok _ =>
        { request := some cardId
          toasts := [.success "Card deleted"]
          state := { s with showCardDialog := false }
          refetch := true }
    | .error _ =>
        { request := some cardId
          toasts := [.error "Failed to delete card"]
          state := s
          refetch := false }

/-! ## Inbox (src/frontend/src/pages/Inbox.js) -/

/-- Local state of the Inbox component. -/
structure InboxState where
  cards : List CardData
  boards : List BoardData
  loading : Bool
  showAIConverter : Bool
  inputText : String
  extractedTasks : List ExtractedTask
  selectedBoard : String
  extracting : Bool
deriving DecidableEq

/-- A fetched JSON body that the source passes through
`Array.isArray(x) ? x : []`: `none` models a non-array body. -/
abbrev ArrRes (α : Type) := Except Unit (Option (List α))

/-- The two responses jointly awaited by the Inbox `fetchData` via
`Promise.all`. -/
structure InboxFetchEnv where
  inboxRes : ArrRes CardData
  boardsRes : ArrRes BoardData

/-- The Inbox `fetchData`: on joint success, cards and boards are
replaced by the (array-checked) bodies; on any rejection the catch
toasts and clears `cards` to `[]` (the boards are left untouched); the
`finally` clears `loading` either way. -/
def fetchData (s : InboxState) (env : InboxFetchEnv) :
    InboxState × List Toast :=
  match env.inboxRes, env.boardsRes with
  | .ok cardsData, .ok boardsData =>
      ({ s with cards := cardsData.getD [], boards := boardsData.getD []
                loading := false }, [])
  | _, _ =>
      ({ s with cards := [], loading := false },
       [.error "Failed to load inbox"])

/-- Environment of one `addTasksToBoard` run: the responses to the two
GETs (lists of the selected board, cards of the selected board), and the
outcome of each card POST the loop will issue, consumed in order
(exhaustion counts as success; a failed POST only logs, it does not
escape the inner catch). -/
structure CommitEnv where
  listsRes : ArrRes ListItem
  cardsRes : ArrRes CardData
  postOutcomes : List Bool

/-- Effects of one `addTasksToBoard` run: the card-creation requests, in
issue order; the number of per-card failures logged to the console; the
toasts; the new state; and whether `fetchData` was triggered. -/
structure CommitOut where
  cardPosts : List CardCreateReq
  consoleErrors : Nat
  toasts : List Toast
  state : InboxState
  fetchCalled : Bool
deriving DecidableEq

/-- The `for (const task of extractedTasks)` loop of `addTasksToBoard`:
each iteration first runs the guard `!firstList?.id || !selectedBoard`
(a falsy id or board skips the iteration without issuing a POST and
without touching `position`); otherwise a POST is built — evaluating
`position++` — and awaited, a rejection being swallowed by the inner
catch after a console log. -/
def commitLoop (firstListId selectedBoard : String) :
    List ExtractedTask → Nat → List Bool → List CardCreateReq × Nat
  | [], _, _ => ([], 0)
  | task :: rest, position, outcomes =>
      if firstListId = "" ∨ selectedBoard = "" then
        commitLoop firstListId selectedBoard rest position outcomes
      else
        let req : CardCreateReq :=
          { title := jsOr task.title "Untitled Task"
            description := jsOr task.description ""
            list_id := firstListId
            board_id := selectedBoard
            position := position
            priority := some (jsOr task.priority "medium") }
        let ok := outcomes.headD true
        let tail := commitLoop firstListId selectedBoard rest (position + 1)
          outcomes.tail
        (req :: tail.1, (if ok then 0 else 1) + tail.2)

/-- `addTasksToBoard`: an unselected board errors out immediately; a
rejected lists or cards GET reaches the outer catch; a board with zero
lists errors out before fetching cards; otherwise the starting position
is the count of existing cards in the first list and the loop posts the
extracted tasks, after which — regardless of per-card failures — the
success toast reports `extractedTasks.length`, the dialog state resets
and `fetchData` runs. -/
def addTasksToBoard (s : InboxState) (env : CommitEnv) : CommitOut :=
  if s.selectedBoard = "" then
    { cardPosts := [], consoleErrors := 0
      toasts := [.error "Please select a board"]
      state := s, fetchCalled := false }
  else
    match env.listsRes with
    | .error _ =>
        { cardPosts := [], consoleErrors := 0
          toasts := [.error "Failed to add tasks"]
          state := s, fetchCalled := false }
    | .ok listsData =>
        let lists := listsData.getD []
        if lists.length = 0 then
          { cardPosts := [], consoleErrors := 0
            toasts := [.error "This board has no lists. Create a list first."]
            state := s, fetchCalled := false }
        else
          match env.cardsRes with
          | .error _ =>
              { cardPosts := [], consoleErrors := 0
                toasts := [.error "Failed to add tasks"]
                state := s, fetchCalled := false }
          | .ok cardsData =>
              let existingCards := cardsData.getD []
              let firstList := lists.headD
                { id := "", board_id := "", title := "", position := 0 }
              let position := (existingCards.filter
                (fun c => c.list_id == firstList.id)).length
              let run := commitLoop firstList.id s.selectedBoard
                s.extractedTasks position env.postOutcomes
              { cardPosts := run.1
                consoleErrors := run.2
                toasts := [.success (toString s.extractedTasks.length ++
                  " task(s) added to board!")]
                state := { s with showAIConverter := false, inputText := ""
                                  extractedTasks := [], selectedBoard := "" }
                fetchCalled := true }

/-! ## Helper lemmas about the bulk-commit loop -/

/-- When neither the first-list id nor the selected board is falsy, the
loop issues one POST per task. -/
theorem commitLoop_length (fl sb : String) (hfl : ¬ fl = "") (hsb : ¬ sb = "") :
    ∀ (tasks : List ExtractedTask) (outs : List Bool) (pos : Nat),
      (commitLoop fl sb tasks pos outs).1.length = tasks.length := by
  intro tasks
  induction tasks with
  | nil => intro outs pos; simp [commitLoop]
  | cons t rest ih =>
      intro outs pos
      simp [commitLoop, hfl, hsb, ih outs.tail (pos + 1)]

/-- The positions carried by the issued POSTs are the consecutive run
starting at the initial counter value, in issue order. -/
theorem commitLoop_positions (fl sb : String) (hfl : ¬ fl = "")
    (hsb : ¬ sb = "") :
    ∀ (tasks : List ExtractedTask) (outs : List Bool) (pos : Nat),
      (commitLoop fl sb tasks pos outs).1.map (fun r => r.position) =
        List.range' pos tasks.length := by
  intro tasks
  induction tasks with
  | nil => intro outs pos; simp [commitLoop]
  | cons t rest ih =>
      intro outs pos
      simp [commitLoop, hfl, hsb, ih outs.tail (pos + 1), List.range'_succ]

/-- The titles of the issued POSTs follow the extracted-task array in
order, each defaulted through `jsOr`. -/
theorem commitLoop_titles (fl sb : String) (hfl : ¬ fl = "")
    (hsb : ¬ sb = "") :
    ∀ (tasks : List ExtractedTask) (outs : List Bool) (pos : Nat),
      (commitLoop fl sb tasks pos outs).1.map (fun r => r.title) =
        tasks.map (fun t => jsOr t.title "Untitled Task") := by
  intro tasks
  induction tasks with
  | nil => intro outs pos; simp [commitLoop]
  | cons t rest ih =>
      intro outs pos
      simp [commitLoop, hfl, hsb, ih outs.tail (pos + 1)]

/-- Title, description and priority of each issued POST, all defaulted
through the JavaScript falsy-or. -/
theorem commitLoop_fields (fl sb : String) (hfl : ¬ fl = "")
    (hsb : ¬ sb = "") :
    ∀ (tasks : List ExtractedTask) (outs : List Bool) (pos : Nat),
      (commitLoop fl sb tasks pos outs).1.map
          (fun r => (r.title, r.description, r.priority)) =
        tasks.map (fun t => (jsOr t.title "Untitled Task",
          jsOr t.description "", some (jsOr t.priority "medium"))) := by
  intro tasks
  induction tasks with
  | nil => intro outs pos; simp [commitLoop]
  | cons t rest ih =>
      intro outs pos
      simp [commitLoop, hfl, hsb, ih outs.tail (pos + 1)]

/-- The requests issued by the loop do not depend on which awaited POSTs
fail: a rejection is swallowed by the inner catch and the loop moves on. -/
theorem commitLoop_fst_outcomes (fl sb : String) :
    ∀ (tasks : List ExtractedTask) (pos : Nat) (outs outs2 : List Bool),
      (commitLoop fl sb tasks pos outs).1 =
        (commitLoop fl sb tasks pos outs2).1 := by
  intro tasks
  induction tasks with
  | nil => intro pos outs outs2; rfl
  | cons t rest ih =>
      intro pos outs outs2
      by_cases h : fl = "" ∨ sb = ""
      · simpa [commitLoop, h] using ih pos outs outs2
      · simpa [commitLoop, h] using ih (pos + 1) outs.tail outs2.tail

/-- Canonical run of `addTasksToBoard` when a board is selected, the
lists GET returns a non-empty array and the cards GET returns an array:
the loop runs from the count of existing first-list cards, the success
toast reports the task count, the dialog state resets and the re-fetch
fires. -/
theorem addTasksToBoard_run (s : InboxState) (env : CommitEnv)
    (l : ListItem) (ls : List ListItem) (cards : List CardData)
    (hsel : ¬ s.selectedBoard = "")
    (hl : env.listsRes = .ok (some (l :: ls)))
    (hc : env.cardsRes = .ok (some cards)) :
    addTasksToBoard s env =
      { cardPosts := (commitLoop l.id s.selectedBoard s.extractedTasks
          ((cards.filter (fun c => c.list_id == l.id)).length)
          env.postOutcomes).1
        consoleErrors := (commitLoop l.id s.selectedBoard s.extractedTasks
          ((cards.filter (fun c => c.list_id == l.id)).length)
          env.postOutcomes).2
        toasts := [.success (toString s.extractedTasks.length ++
          " task(s) added to board!")]
        state := { s with showAIConverter := false, inputText := ""
                          extractedTasks := [], selectedBoard := "" }
        fetchCalled := true } := by
  unfold addTasksToBoard
  rw [hl, hc]
  simp [hsel]

/-! ## Claims -/

/-- C1 (amended): for every commit of N extracted tasks to a selected
board whose lists GET returns a non-empty array whose first list has a
non-empty id, and whose cards GET returns M cards belonging to that
first list, the commit issues exactly N card-creation calls whose
position fields are M, M+1, ..., M+N-1 (`List.range' M N`), in the same
order as the extracted-task array (witnessed by the titles following the
task array in order). -/
theorem claim_C1 (s : InboxState) (env : CommitEnv) (l : ListItem)
    (ls : List ListItem) (cards : List CardData)
    (hsel : ¬ s.selectedBoard = "") (hid : ¬ l.id = "")
    (hl : env.listsRes = .ok (some (l :: ls)))
    (hc : env.cardsRes = .ok (some cards)) :
    (addTasksToBoard s env).cardPosts.length = s.extractedTasks.length ∧
    (addTasksToBoard s env).cardPosts.map (fun r => r.position) =
      List.range' ((cards.filter (fun c => c.list_id == l.id)).length)
        s.extractedTasks.length ∧
    (addTasksToBoard s env).cardPosts.map (fun r => r.title) =
      s.extractedTasks.map (fun t => jsOr t.title "Untitled Task") := by
  rw [addTasksToBoard_run s env l ls cards hsel hl hc]
  exact ⟨commitLoop_length l.id s.selectedBoard hid hsel _ _ _,
    commitLoop_positions l.id s.selectedBoard hid hsel _ _ _,
    commitLoop_titles l.id s.selectedBoard hid hsel _ _ _⟩

/-- C1 counterexample: the claim as frozen quantifies over every fetched
state with at least one list.  Here the board has exactly one list, its
fetched card set contains M = 0 cards of that list, and N = 1 task is
committed, so the claim demands one POST with position 0; but the first
list has the (falsy) id `""`, so the guard `!firstList?.id` skips every
iteration and zero card-creation calls are issued. -/
theorem claim_C1_cex :
    (addTasksToBoard
      { cards := [], boards := [], loading := false, showAIConverter := true
        inputText := "Buy milk.", extractedTasks :=
          [{ title := some "Buy milk", description := none, priority := none }]
        selectedBoard := "b1", extracting := false }
      { listsRes := .ok (some
          [{ id := "", board_id := "b1", title := "Todo", position := 0 }])
        cardsRes := .ok (some []), postOutcomes := [true] }).cardPosts = []
    ∧ ¬ (addTasksToBoard
      { cards := [], boards := [], loading := false, showAIConverter := true
        inputText := "Buy milk.", extractedTasks :=
          [{ title := some "Buy milk", description := none, priority := none }]
        selectedBoard := "b1", extracting := false }
      { listsRes := .ok (some
          [{ id := "", board_id := "b1", title := "Todo", position := 0 }])
        cardsRes := .ok (some []), postOutcomes := [true] }).cardPosts.map
        (fun r => r.position) = [0] := by
  decide

/-- C1 witness: two tasks committed onto a first list `l1` already
holding one card yield two POSTs with positions 1 and 2 and titles in
task order. -/
theorem claim_C1_witness :
    (addTasksToBoard
      { cards := [], boards := [], loading := false, showAIConverter := true
        inputText := "", extractedTasks :=
          [{ title := some "A", description := none, priority := none },
           { title := none, description := some "d", priority := some "high" }]
        selectedBoard := "b", extracting := false }
      { listsRes := .ok (some
          [{ id := "l1", board_id := "b", title := "Todo", position := 0 }])
        cardsRes := .ok (some
          [{ id := "c0", list_id := "l1", board_id := "b", title := "x"
             description := none, priority := none, position := 0 }])
        postOutcomes := [true, false] }).cardPosts.length = 2 ∧
    (addTasksToBoard
      { cards := [], boards := [], loading := false, showAIConverter := true
        inputText := "", extractedTasks :=
          [{ title := some "A", description := none, priority := none },
           { title := none, description := some "d", priority := some "high" }]
        selectedBoard := "b", extracting := false }
      { listsRes := .ok (some
          [{ id := "l1", board_id := "b", title := "Todo", position := 0 }])
        cardsRes := .ok (some
          [{ id := "c0", list_id := "l1", board_id := "b", title := "x"
             description := none, priority := none, position := 0 }])
        postOutcomes := [true, false] }).cardPosts.map (fun r => r.position) =
      [1, 2] ∧
    (addTasksToBoard
      { cards := [], boards := [], loading := false, showAIConverter := true
        inputText := "", extractedTasks :=
          [{ title := some "A", description := none, priority := none },
           { title := none, description := some "d", priority := some "high" }]
        selectedBoard := "b", extracting := false }
      { listsRes := .ok (some
          [{ id := "l1", board_id := "b", title := "Todo", position := 0 }])
        cardsRes := .ok (some
          [{ id := "c0", list_id := "l1", board_id := "b", title := "x"
             description := none, priority := none, position := 0 }])
        postOutcomes := [true, false] }).cardPosts.map (fun r => r.title) =
      ["A", "Untitled Task"] := by
  have h := claim_C1
    { cards := [], boards := [], loading := false, showAIConverter := true
      inputText := "", extractedTasks :=
        [{ title := some "A", description := none, priority := none },
         { title := none, description := some "d", priority := some "high" }]
      selectedBoard := "b", extracting := false }
    { listsRes := .ok (some
        [{ id := "l1", board_id := "b", title := "Todo", position := 0 }])
      cardsRes := .ok (some
        [{ id := "c0", list_id := "l1", board_id := "b", title := "x"
           description := none, priority := none, position := 0 }])
      postOutcomes := [true, false] }
    { id := "l1", board_id := "b", title := "Todo", position := 0 } []
    [{ id := "c0", list_id := "l1", board_id := "b", title := "x"
       description := none, priority := none, position := 0 }]
    (by decide) (by decide) rfl rfl
  exact h

/-- C2: once the bulk commit reaches its loop (board selected, lists GET
returned a non-empty array, cards GET returned an array), the
card-creation requests issued are identical under every per-card failure
pattern — in particular identical to the run in which no POST fails, so
a failing POST never stops the loop and every remaining task is still
posted — and after the loop the dialog state (input text, extracted
tasks, selected board, dialog-open flag) is reset and the inbox data is
re-fetched, regardless of the failure pattern. -/
theorem claim_C2 (s : InboxState) (env : CommitEnv) (outs2 : List Bool)
    (l : ListItem) (ls : List ListItem) (cards : List CardData)
    (hsel : ¬ s.selectedBoard = "")
    (hl : env.listsRes = .ok (some (l :: ls)))
    (hc : env.cardsRes = .ok (some cards)) :
    (addTasksToBoard s { env with postOutcomes := outs2 }).cardPosts =
      (addTasksToBoard s env).cardPosts ∧
    (addTasksToBoard s env).state =
      { s with showAIConverter := false, inputText := ""
               extractedTasks := [], selectedBoard := "" } ∧
    (addTasksToBoard s env).fetchCalled = true := by
  have h1 := addTasksToBoard_run s env l ls cards hsel hl hc
  have h2 := addTasksToBoard_run s { env with postOutcomes := outs2 }
    l ls cards hsel hl hc
  refine ⟨?_, by rw [h1], by rw [h1]⟩
  rw [h1, h2]
  exact commitLoop_fst_outcomes l.id s.selectedBoard s.extractedTasks
    ((cards.filter (fun c => c.list_id == l.id)).length) outs2 env.postOutcomes

/-- C2 witness: with two tasks and a failure pattern in which both POSTs
fail, the same two requests are issued as when both succeed, and the
dialog still resets and the re-fetch still fires. -/
theorem claim_C2_witness :
    (addTasksToBoard
      { cards := [], boards := [], loading := false, showAIConverter := true
        inputText := "t", extractedTasks :=
          [{ title := some "A", description := none, priority := none },
           { title := some "B", description := none, priority := none }]
        selectedBoard := "b", extracting := false }
      { listsRes := .ok (some
          [{ id := "l1", board_id := "b", title := "Todo", position := 0 }])
        cardsRes := .ok (some []), postOutcomes := [true, true] }).cardPosts =
    (addTasksToBoard
      { cards := [], boards := [], loading := false, showAIConverter := true
        inputText := "t", extractedTasks :=
          [{ title := some "A", description := none, priority := none },
           { title := some "B", description := none, priority := none }]
        selectedBoard := "b", extracting := false }
      { listsRes := .ok (some
          [{ id := "l1", board_id := "b", title := "Todo", position := 0 }])
        cardsRes := .ok (some []),
        postOutcomes := [false, false] }).cardPosts ∧
    (addTasksToBoard
      { cards := [], boards := [], loading := false, showAIConverter := true
        inputText := "t", extractedTasks :=
          [{ title := some "A", description := none, priority := none },
           { title := some "B", description := none, priority := none }]
        selectedBoard := "b", extracting := false }
      { listsRes := .ok (some
          [{ id := "l1", board_id := "b", title := "Todo", position := 0 }])
        cardsRes := .ok (some []), postOutcomes := [false, false] }).state =
      { cards := [], boards := [], loading := false, showAIConverter := false
        inputText := "", extractedTasks := []
        selectedBoard := "", extracting := false } ∧
    (addTasksToBoard
      { cards := [], boards := [], loading := false, showAIConverter := true
        inputText := "t", extractedTasks :=
          [{ title := some "A", description := none, priority := none },
           { title := some "B", description := none, priority := none }]
        selectedBoard := "b", extracting := false }
      { listsRes := .ok (some
          [{ id := "l1", board_id := "b", title := "Todo", position := 0 }])
        cardsRes := .ok (some []),
        postOutcomes := [false, false] }).fetchCalled = true := by
  have h := claim_C2
    { cards := [], boards := [], loading := false, showAIConverter := true
      inputText := "t", extractedTasks :=
        [{ title := some "A", description := none, priority := none },
         { title := some "B", description := none, priority := none }]
      selectedBoard := "b", extracting := false }
    { listsRes := .ok (some
        [{ id := "l1", board_id := "b", title := "Todo", position := 0 }])
      cardsRes := .ok (some []), postOutcomes := [false, false] }
    [true, true]
    { id := "l1", board_id := "b", title := "Todo", position := 0 } [] []
    (by decide) rfl rfl
  exact h

/-- C3: when the selected board is non-empty but its lists GET returns
an empty array, the commit makes zero card-creation calls, shows exactly
the single error notification about the missing list, leaves the state
untouched (extracted tasks, input text, dialog-open flag, inbox cards)
and does not re-fetch. -/
theorem claim_C3 (s : InboxState) (env : CommitEnv)
    (hsel : ¬ s.selectedBoard = "")
    (hl : env.listsRes = .ok (some [])) :
    addTasksToBoard s env =
      { cardPosts := [], consoleErrors := 0
        toasts := [Toast.error "This board has no lists. Create a list first."]
        state := s, fetchCalled := false } := by
  unfold addTasksToBoard
  rw [hl]
  simp [hsel]

/-- C3 witness: a concrete commit attempt against a board whose lists
GET returns the empty array. -/
theorem claim_C3_witness :
    addTasksToBoard
      { cards := [{ id := "c9", list_id := "", board_id := "", title := "keep"
                    description := none, priority := none, position := 0 }]
        boards := [], loading := false, showAIConverter := true
        inputText := "text", extractedTasks :=
          [{ title := some "A", description := none, priority := none }]
        selectedBoard := "b", extracting := false }
      { listsRes := .ok (some []), cardsRes := .ok (some [])
        postOutcomes := [] } =
      { cardPosts := [], consoleErrors := 0
        toasts := [Toast.error "This board has no lists. Create a list first."]
        state :=
          { cards := [{ id := "c9", list_id := "", board_id := ""
                        title := "keep", description := none, priority := none
                        position := 0 }]
            boards := [], loading := false, showAIConverter := true
            inputText := "text", extractedTasks :=
              [{ title := some "A", description := none, priority := none }]
            selectedBoard := "b", extracting := false }
        fetchCalled := false } := by
  exact claim_C3
    { cards := [{ id := "c9", list_id := "", board_id := "", title := "keep"
                  description := none, priority := none, position := 0 }]
      boards := [], loading := false, showAIConverter := true
      inputText := "text", extractedTasks :=
        [{ title := some "A", description := none, priority := none }]
      selectedBoard := "b", extracting := false }
    { listsRes := .ok (some []), cardsRes := .ok (some [])
      postOutcomes := [] }
    (by decide) rfl

/-- C9: whenever the bulk-commit loop completes, the success toast
reports the length of the extracted-task array — and the toast is
identical under every per-card failure pattern, whether zero or all of
the POSTs failed. -/
theorem claim_C9 (s : InboxState) (env : CommitEnv) (outs2 : List Bool)
    (l : ListItem) (ls : List ListItem) (cards : List CardData)
    (hsel : ¬ s.selectedBoard = "")
    (hl : env.listsRes = .ok (some (l :: ls)))
    (hc : env.cardsRes = .ok (some cards)) :
    (addTasksToBoard s env).toasts =
      [Toast.success (toString s.extractedTasks.length ++
        " task(s) added to board!")] ∧
    (addTasksToBoard s { env with postOutcomes := outs2 }).toasts =
      (addTasksToBoard s env).toasts := by
  have h1 := addTasksToBoard_run s env l ls cards hsel hl hc
  have h2 := addTasksToBoard_run s { env with postOutcomes := outs2 }
    l ls cards hsel hl hc
  rw [h1, h2]
  exact ⟨rfl, rfl⟩

/-- C9 witness: two tasks, both POSTs failing, still toast
"2 task(s) added to board!", identical to the all-success run. -/
theorem claim_C9_witness :
    (addTasksToBoard
      { cards := [], boards := [], loading := false, showAIConverter := true
        inputText := "t", extractedTasks :=
          [{ title := some "A", description := none, priority := none },
           { title := some "B", description := none, priority := none }]
        selectedBoard := "b", extracting := false }
      { listsRes := .ok (some
          [{ id := "l1", board_id := "b", title := "Todo", position := 0 }])
        cardsRes := .ok (some []), postOutcomes := [false, false] }).toasts =
      [Toast.success "2 task(s) added to board!"] ∧
    (addTasksToBoard
      { cards := [], boards := [], loading := false, showAIConverter := true
        inputText := "t", extractedTasks :=
          [{ title := some "A", description := none, priority := none },
           { title := some "B", description := none, priority := none }]
        selectedBoard := "b", extracting := false }
      { listsRes := .ok (some
          [{ id := "l1", board_id := "b", title := "Todo", position := 0 }])
        cardsRes := .ok (some []), postOutcomes := [true, true] }).toasts =
    (addTasksToBoard
      { cards := [], boards := [], loading := false, showAIConverter := true
        inputText := "t", extractedTasks :=
          [{ title := some "A", description := none, priority := none },
           { title := some "B", description := none, priority := none }]
        selectedBoard := "b", extracting := false }
      { listsRes := .ok (some
          [{ id := "l1", board_id := "b", title := "Todo", position := 0 }])
        cardsRes := .ok (some []), postOutcomes := [false, false] }).toasts := by
  have h := claim_C9
    { cards := [], boards := [], loading := false, showAIConverter := true
      inputText := "t", extractedTasks :=
        [{ title := some "A", description := none, priority := none },
         { title := some "B", description := none, priority := none }]
      selectedBoard := "b", extracting := false }
    { listsRes := .ok (some
        [{ id := "l1", board_id := "b", title := "Todo", position := 0 }])
      cardsRes := .ok (some []), postOutcomes := [false, false] }
    [true, true]
    { id := "l1", board_id := "b", title := "Todo", position := 0 } [] []
    (by decide) rfl rfl
  exact h

/-- C4: for the two joint concurrent fetches (board+lists+cards in the
board view, inbox cards+boards in the inbox view), if any one of the
jointly awaited requests fails then the whole fetch reports failure with
an error notification and none of the successfully returned partial
responses is applied: the board-view fields keep their previous values,
and the inbox sets cards to the constant `[]` and leaves boards
untouched, independently of whatever the successful responses carried. -/
theorem claim_C4 (sb : BoardViewState) (envb : BoardFetchEnv)
    (si : InboxState) (envi : InboxFetchEnv)
    (hb : envb.boardRes = .error () ∨ envb.listsRes = .error () ∨
      envb.cardsRes = .error ())
    (hi : envi.inboxRes = .error () ∨ envi.boardsRes = .error ()) :
    (fetchBoardData sb envb).1.board = sb.board ∧
    (fetchBoardData sb envb).1.lists = sb.lists ∧
    (fetchBoardData sb envb).1.cards = sb.cards ∧
    (fetchBoardData sb envb).2 = [Toast.error "Failed to load board data"] ∧
    (fetchData si envi).1.boards = si.boards ∧
    (fetchData si envi).1.cards = [] ∧
    (fetchData si envi).2 = [Toast.error "Failed to load inbox"] := by
  obtain ⟨br, lr, cr⟩ := envb
  obtain ⟨ir, bor⟩ := envi
  cases br <;> cases lr <;> cases cr <;> cases ir <;> cases bor <;>
    simp_all [fetchBoardData, fetchData]

/-- C4 witness: the lists GET of the board view fails while board and
cards succeed, and the boards GET of the inbox fails while the inbox
cards GET succeeds with a non-empty payload; no successful payload is
applied and both fetches toast. -/
theorem claim_C4_witness :
    (fetchBoardData
      { board := none, lists := [], cards := [], loading := true
        newListTitle := "", selectedCard := none, showCardDialog := false
        newCardTitle := "", newCardListId := "", showNewCardDialog := false }
      { boardRes := .ok { id := "b", title := "B", description := none
                          background := none }
        listsRes := .error ()
        cardsRes := .ok [{ id := "c", list_id := "l", board_id := "b"
                           title := "T", description := none, priority := none
                           position := 0 }] }).1.board = none ∧
    (fetchBoardData
      { board := none, lists := [], cards := [], loading := true
        newListTitle := "", selectedCard := none, showCardDialog := false
        newCardTitle := "", newCardListId := "", showNewCardDialog := false }
      { boardRes := .ok { id := "b", title := "B", description := none
                          background := none }
        listsRes := .error ()
        cardsRes := .ok [{ id := "c", list_id := "l", board_id := "b"
                           title := "T", description := none, priority := none
                           position := 0 }] }).1.lists = [] ∧
    (fetchBoardData
      { board := none, lists := [], cards := [], loading := true
        newListTitle := "", selectedCard := none, showCardDialog := false
        newCardTitle := "", newCardListId := "", showNewCardDialog := false }
      { boardRes := .ok { id := "b", title := "B", description := none
                          background := none }
        listsRes := .error ()
        cardsRes := .ok [{ id := "c", list_id := "l", board_id := "b"
                           title := "T", description := none, priority := none
                           position := 0 }] }).1.cards = [] ∧
    (fetchBoardData
      { board := none, lists := [], cards := [], loading := true
        newListTitle := "", selectedCard := none, showCardDialog := false
        newCardTitle := "", newCardListId := "", showNewCardDialog := false }
      { boardRes := .ok { id := "b", title := "B", description := none
                          background := none }
        listsRes := .error ()
        cardsRes := .ok [{ id := "c", list_id := "l", board_id := "b"
                           title := "T", description := none, priority := none
                           position := 0 }] }).2 =
      [Toast.error "Failed to load board data"] ∧
    (fetchData
      { cards := [], boards :=
          [{ id := "b0", title := "Old", description := none
             background := none }]
        loading := true, showAIConverter := false, inputText := ""
        extractedTasks := [], selectedBoard := "", extracting := false }
      { inboxRes := .ok (some
          [{ id := "c1", list_id := "", board_id := "", title := "new"
             description := none, priority := none, position := 0 }])
        boardsRes := .error () }).1.boards =
      [{ id := "b0", title := "Old", description := none
         background := none }] ∧
    (fetchData
      { cards := [], boards :=
          [{ id := "b0", title := "Old", description := none
             background := none }]
        loading := true, showAIConverter := false, inputText := ""
        extractedTasks := [], selectedBoard := "", extracting := false }
      { inboxRes := .ok (some
          [{ id := "c1", list_id := "", board_id := "", title := "new"
             description := none, priority := none, position := 0 }])
        boardsRes := .error () }).1.cards = [] ∧
    (fetchData
      { cards := [], boards :=
          [{ id := "b0", title := "Old", description := none
             background := none }]
        loading := true, showAIConverter := false, inputText := ""
        extractedTasks := [], selectedBoard := "", extracting := false }
      { inboxRes := .ok (some
          [{ id := "c1", list_id := "", board_id := "", title := "new"
             description := none, priority := none, position := 0 }])
        boardsRes := .error () }).2 =
      [Toast.error "Failed to load inbox"] := by
  have h := claim_C4
    { board := none, lists := [], cards := [], loading := true
      newListTitle := "", selectedCard := none, showCardDialog := false
      newCardTitle := "", newCardListId := "", showNewCardDialog := false }
    { boardRes := .ok { id := "b", title := "B", description := none
                        background := none }
      listsRes := .error ()
      cardsRes := .ok [{ id := "c", list_id := "l", board_id := "b"
                         title := "T", description := none, priority := none
                         position := 0 }] }
    { cards := [], boards :=
        [{ id := "b0", title := "Old", description := none
           background := none }]
      loading := true, showAIConverter := false, inputText := ""
      extractedTasks := [], selectedBoard := "", extracting := false }
    { inboxRes := .ok (some
        [{ id := "c1", list_id := "", board_id := "", title := "new"
           description := none, priority := none, position := 0 }])
      boardsRes := .error () }
    (Or.inr (Or.inl rfl)) (Or.inr rfl)
  exact h

/-- C5: a board-creation submission whose title is blank or whitespace
only after trimming makes no network request, shows the error
notification, leaves the dialog and form state unchanged and does not
re-fetch. -/
theorem claim_C5 (s : DashboardState) (postRes : Except Unit Unit)
    (h : jsTrim s.newBoardTitle = "") :
    createBoard s postRes =
      { request := none, toasts := [Toast.error "Board title is required"]
        state := s, refetch := false } := by
  simp [createBoard, h]

/-- C5 witness: a whitespace-only title. -/
theorem claim_C5_witness :
    createBoard
      { boards := [], loading := false, showNewBoard := true
        newBoardTitle := "   ", newBoardDescription := "plan" } (.ok ()) =
      { request := none, toasts := [Toast.error "Board title is required"]
        state := { boards := [], loading := false, showNewBoard := true
                   newBoardTitle := "   ", newBoardDescription := "plan" }
        refetch := false } := by
  exact claim_C5
    { boards := [], loading := false, showNewBoard := true
      newBoardTitle := "   ", newBoardDescription := "plan" } (.ok ())
    (by decide)

/-- C6: a card-deletion attempt in which the user declines the blocking
confirmation prompt issues no delete request, shows no toast, leaves the
whole component state unchanged and does not re-fetch. -/
theorem claim_C6 (s : BoardViewState) (cardId : String)
    (delRes : Except Unit Unit) :
    deleteCard s cardId false delRes =
      { request := none, toasts := [], state := s, refetch := false } := by
  simp [deleteCard]

/-- C6 witness: declining the prompt on a concrete state with open
dialogs. -/
theorem claim_C6_witness :
    deleteCard
      { board := none, lists := [], cards := [], loading := false
        newListTitle := "x", selectedCard := none, showCardDialog := true
        newCardTitle := "", newCardListId := "", showNewCardDialog := false }
      "card7" false (.ok ()) =
      { request := none, toasts := []
        state :=
          { board := none, lists := [], cards := [], loading := false
            newListTitle := "x", selectedCard := none, showCardDialog := true
            newCardTitle := "", newCardListId := ""
            showNewCardDialog := false }
        refetch := false } := by
  exact claim_C6
    { board := none, lists := [], cards := [], loading := false
      newListTitle := "x", selectedCard := none, showCardDialog := true
      newCardTitle := "", newCardListId := "", showNewCardDialog := false }
    "card7" (.ok ())

/-- C7: a credential submission whose response succeeds with
\x7btoken, user\x7d invokes the onLogin callback exactly once, with exactly
that token and user. -/
theorem claim_C7 (s : LoginState) (t : String) (u : AuthUser) :
    (handleSubmit s (.ok { token := t, user := u })).onLoginCalls =
      [(t, u)] := by
  simp [handleSubmit]

/-- C7 witness: a concrete successful login response. -/
theorem claim_C7_witness :
    (handleSubmit
      { isLogin := true, email := "a@b.c", password := "pw", name := ""
        loading := true }
      (.ok { token := "tok123"
             user := { id := "u1", name := "Ada", email := "a@b.c" } })
      ).onLoginCalls =
      [("tok123", { id := "u1", name := "Ada", email := "a@b.c" })] := by
  exact claim_C7
    { isLogin := true, email := "a@b.c", password := "pw", name := ""
      loading := true }
    "tok123" { id := "u1", name := "Ada", email := "a@b.c" }

/-- C8 (amended): every card-creation request posted by the inbox bulk
commit carries the JavaScript falsy-defaulted fields: the title of the
task when present and non-empty, otherwise "Untitled Task"; the
description of the task when present, otherwise the empty string (a
present empty description also yields the empty string); the priority of
the task when present and non-empty, otherwise "medium"; in task order. -/
theorem claim_C8 (s : InboxState) (env : CommitEnv) (l : ListItem)
    (ls : List ListItem) (cards : List CardData)
    (hsel : ¬ s.selectedBoard = "") (hid : ¬ l.id = "")
    (hl : env.listsRes = .ok (some (l :: ls)))
    (hc : env.cardsRes = .ok (some cards)) :
    (addTasksToBoard s env).cardPosts.map
        (fun r => (r.title, r.description, r.priority)) =
      s.extractedTasks.map (fun t => (jsOr t.title "Untitled Task",
        jsOr t.description "", some (jsOr t.priority "medium"))) := by
  rw [addTasksToBoard_run s env l ls cards hsel hl hc]
  exact commitLoop_fields l.id s.selectedBoard hid hsel _ _ _

/-- C8 counterexample: a task whose title and priority are present but
empty.  The claim as frozen demands the request to carry the present
title ("") and present priority (""); the code, using the falsy `||`
operator, sends "Untitled Task" and "medium" instead. -/
theorem claim_C8_cex :
    (addTasksToBoard
      { cards := [], boards := [], loading := false, showAIConverter := true
        inputText := "x", extractedTasks :=
          [{ title := some "", description := none, priority := some "" }]
        selectedBoard := "b1", extracting := false }
      { listsRes := .ok (some
          [{ id := "l1", board_id := "b1", title := "Todo", position := 0 }])
        cardsRes := .ok (some []), postOutcomes := [true] }).cardPosts.map
      (fun r => (r.title, r.priority)) = [("Untitled Task", some "medium")] ∧
    ¬ (addTasksToBoard
      { cards := [], boards := [], loading := false, showAIConverter := true
        inputText := "x", extractedTasks :=
          [{ title := some "", description := none, priority := some "" }]
        selectedBoard := "b1", extracting := false }
      { listsRes := .ok (some
          [{ id := "l1", board_id := "b1", title := "Todo", position := 0 }])
        cardsRes := .ok (some []), postOutcomes := [true] }).cardPosts.map
      (fun r => (r.title, r.priority)) = [("", some "")] := by
  decide

/-- C8 witness: a task with full title and description but no priority
is posted verbatim with priority defaulted to "medium". -/
theorem claim_C8_witness :
    (addTasksToBoard
      { cards := [], boards := [], loading := false, showAIConverter := true
        inputText := "x", extractedTasks :=
          [{ title := some "Hello", description := some "world"
             priority := none }]
        selectedBoard := "b", extracting := false }
      { listsRes := .ok (some
          [{ id := "l1", board_id := "b", title := "Todo", position := 0 }])
        cardsRes := .ok (some []), postOutcomes := [true] }).cardPosts.map
      (fun r => (r.title, r.description, r.priority)) =
      [("Hello", "world", some "medium")] := by
  have h := claim_C8
    { cards := [], boards := [], loading := false, showAIConverter := true
      inputText := "x", extractedTasks :=
        [{ title := some "Hello", description := some "world"
           priority := none }]
      selectedBoard := "b", extracting := false }
    { listsRes := .ok (some
        [{ id := "l1", board_id := "b", title := "Todo", position := 0 }])
      cardsRes := .ok (some []), postOutcomes := [true] }
    { id := "l1", board_id := "b", title := "Todo", position := 0 } [] []
    (by decide) (by decide) rfl rfl
  exact h

/-- C10: a list-creation invocation with a blank or whitespace-only
title returns silently — no network request, no toast, no state change,
no re-fetch — unlike board creation and card creation, which make no
request either but do show an error notification for an empty title. -/
theorem claim_C10 (boardId : String) (sb : BoardViewState)
    (sd : DashboardState) (r1 r2 r3 : Except Unit Unit)
    (h1 : jsTrim sb.newListTitle = "")
    (h2 : jsTrim sd.newBoardTitle = "")
    (h3 : jsTrim sb.newCardTitle = "") :
    createList boardId sb r1 =
      { request := none, toasts := [], state := sb, refetch := false } ∧
    (createBoard sd r2).request = none ∧
    (createBoard sd r2).toasts = [Toast.error "Board title is required"] ∧
    (handleCreateCard boardId sb r3).request = none ∧
    (handleCreateCard boardId sb r3).toasts =
      [Toast.error "Card title is required"] := by
  refine ⟨?_, ?_, ?_, ?_, ?_⟩
  · simp [createList, h1]
  · simp [createBoard, h2]
  · simp [createBoard, h2]
  · simp [handleCreateCard, h3]
  · simp [handleCreateCard, h3]

/-- C10 witness: whitespace-only titles in all three creation forms. -/
theorem claim_C10_witness :
    createList "b"
      { board := none, lists := [], cards := [], loading := false
        newListTitle := " ", selectedCard := none, showCardDialog := false
        newCardTitle := "  ", newCardListId := "l1"
        showNewCardDialog := true } (.ok ()) =
      { request := none, toasts := []
        state :=
          { board := none, lists := [], cards := [], loading := false
            newListTitle := " ", selectedCard := none, showCardDialog := false
            newCardTitle := "  ", newCardListId := "l1"
            showNewCardDialog := true }
        refetch := false } ∧
    (createBoard
      { boards := [], loading := false, showNewBoard := true
        newBoardTitle := "  ", newBoardDescription := "" }
      (.ok ())).request = none ∧
    (createBoard
      { boards := [], loading := false, showNewBoard := true
        newBoardTitle := "  ", newBoardDescription := "" }
      (.ok ())).toasts = [Toast.error "Board title is required"] ∧
    (handleCreateCard "b"
      { board := none, lists := [], cards := [], loading := false
        newListTitle := " ", selectedCard := none, showCardDialog := false
        newCardTitle := "  ", newCardListId := "l1"
        showNewCardDialog := true } (.ok ())).request = none ∧
    (handleCreateCard "b"
      { board := none, lists := [], cards := [], loading := false
        newListTitle := " ", selectedCard := none, showCardDialog := false
        newCardTitle := "  ", newCardListId := "l1"
        showNewCardDialog := true } (.ok ())).toasts =
      [Toast.error "Card title is required"] := by
  have h := claim_C10 "b"
    { board := none, lists := [], cards := [], loading := false
      newListTitle := " ", selectedCard := none, showCardDialog := false
      newCardTitle := "  ", newCardListId := "l1"
      showNewCardDialog := true }
    { boards := [], loading := false, showNewBoard := true
      newBoardTitle := "  ", newBoardDescription := "" }
    (.ok ()) (.ok ()) (.ok ())
    (by decide) (by decide) (by decide)
  exact h

end TaskHandler
